import Mathlib

/-!
# Verification of the OAuth/PKCE authentication core

Shallow embedding of the `SecureStorage` utility and the `AuthService`
OAuth service of the GitHub-Action-Monitor desktop client, together with
proofs about the token-lifecycle and state-verification claims.

Conventions of the embedding:
* JavaScript `Date.now()` (milliseconds since epoch) is passed explicitly
  as a `now : Nat` parameter to every operation that reads the clock.
* The `electron-store` key/value store is modelled by the `Store`
  structure, one field per fixed key used by the source
  (`github.tokens`, `oauth.state`, `oauth.pkce.verifier`, `user.profile`).
* The encrypted token blob may fail to decrypt or parse when read back;
  that environmental outcome is modelled by `TokenBlob`: a blob is either
  `good data` or `corrupted` (decryption/JSON parsing throws on it).
* HTTP calls (`axios.post` to the token endpoint) are external; their
  outcome is an explicit `HttpOutcome` argument: a network error, or a
  JSON response body `TokenResponse`.
* Fallible JavaScript code (functions that `throw`) is embedded in
  `Except String`; `try/catch` blocks become `match` on the result.
-/

/-- The record stored under the `oauth.state` key by
`SecureStorage.storeOAuthState`: the state string and its creation time. -/
structure OAuthStateRecord where
  value : String
  createdAt : Nat
deriving DecidableEq

/-- The token record assembled by `SecureStorage.storeTokens`:
`{ accessToken, refreshToken, expiresAt, storedAt }`.  `refreshToken` is
`Option String` because the JS value may be `null`. -/
structure TokenData where
  accessToken : String
  refreshToken : Option String
  expiresAt : Nat
  storedAt : Nat
deriving DecidableEq

/-- The persisted (encrypted) token blob under `github.tokens`.  Reading a
`corrupted` blob makes `safeStorage.decryptString`/`JSON.parse` throw. -/
inductive TokenBlob where
  | good (data : TokenData)
  | corrupted
deriving DecidableEq

/-- GitHub user profile as fetched from the identity endpoint (the fields
the source reads: `login`, numeric `id`, `avatar_url`). -/
structure UserProfile where
  login : String
  id : Nat
  avatar_url : String
deriving DecidableEq

/-- JSON body returned by the provider token endpoint:
`{access_token, refresh_token?, expires_in?, error?, error_description?}`.
Absent fields are `none` (JS `undefined`). -/
structure TokenResponse where
  access_token : String
  refresh_token : Option String
  expires_in : Option Nat
  error : Option String
  error_description : Option String
deriving DecidableEq

/-- Outcome of an outbound HTTP token-endpoint call: either the request
itself fails (network error: `axios.post` rejects) or a response body is
delivered. -/
inductive HttpOutcome where
  | networkError
  | response (data : TokenResponse)
deriving DecidableEq

/-- The `electron-store` contents, one field per fixed key used by
`SecureStorage`. -/
structure Store where
  tokens : Option TokenBlob
  oauthState : Option OAuthStateRecord
  pkceVerifier : Option (String × Nat)
  userProfile : Option UserProfile
deriving DecidableEq

/-- JavaScript `x || d` on an optional number: `undefined` and `0` are
falsy, so both map to the default. -/
def jsOr (x : Option Nat) (d : Nat) : Nat :=
  match x with
  | none => d
  | some 0 => d
  | some n => n

/-- `SecureStorage.storeTokens(accessToken, refreshToken = null,
expiresIn = 28800)`: builds `{accessToken, refreshToken,
expiresAt: Date.now() + expiresIn*1000, storedAt: Date.now()}` and writes
the encrypted blob under `github.tokens`. -/
def SecureStorage.storeTokens (now : Nat) (accessToken : String)
    (refreshToken : Option String) (expiresIn : Nat) (st : Store) : Store :=
  { st with tokens := some (.good
      { accessToken := accessToken
        refreshToken := refreshToken
        expiresAt := now + expiresIn * 1000
        storedAt := now }) }

/-- `SecureStorage.getTokens()`: reads `github.tokens`; returns `null` if
absent; decrypts and parses, returning `null` from the `catch` block when
decryption or parsing fails. -/
def SecureStorage.getTokens (st : Store) : Option TokenData :=
  match st.tokens with
  | none => none
  | some (.good data) => some data
  | some .corrupted => none

/-- `SecureStorage.isTokenExpired()`: true if no tokens (or no
`expiresAt`), else `Date.now() >= tokens.expiresAt`. -/
def SecureStorage.isTokenExpired (now : Nat) (st : Store) : Bool :=
  match SecureStorage.getTokens st with
  | none => true
  | some tokens => decide (now ≥ tokens.expiresAt)

/-- `SecureStorage.getValidAccessToken()`: the stored access token, or
`null` if no tokens or `Date.now() >= tokens.expiresAt`. -/
def SecureStorage.getValidAccessToken (now : Nat) (st : Store) : Option String :=
  match SecureStorage.getTokens st with
  | none => none
  | some tokens =>
    if now ≥ tokens.expiresAt then none else some tokens.accessToken

/-- `SecureStorage.clearTokens()`: deletes `github.tokens`. -/
def SecureStorage.clearTokens (st : Store) : Store :=
  { st with tokens := none }

/-- `SecureStorage.storeOAuthState(state)`: writes
`{value: state, createdAt: Date.now()}` under `oauth.state`. -/
def SecureStorage.storeOAuthState (now : Nat) (state : String) (st : Store) : Store :=
  { st with oauthState := some { value := state, createdAt := now } }

/-- `SecureStorage.verifyOAuthState(state)`: returns `false` if nothing is
stored; otherwise valid iff the stored value equals the candidate and the
record is younger than 10 minutes (`Date.now() - createdAt < 600000`);
the stored record is deleted only when valid.  Returns the verdict paired
with the store after the call. -/
def SecureStorage.verifyOAuthState (now : Nat) (state : String) (st : Store) :
    Bool × Store :=
  match st.oauthState with
  | none => (false, st)
  | some stored =>
    let isValid := stored.value == state && decide (now - stored.createdAt < 600000)
    if isValid then (true, { st with oauthState := none }) else (false, st)

/-- `SecureStorage.storePKCEVerifier(verifier)`: writes
`{value: verifier, createdAt: Date.now()}` under `oauth.pkce.verifier`. -/
def SecureStorage.storePKCEVerifier (now : Nat) (verifier : String) (st : Store) : Store :=
  { st with pkceVerifier := some (verifier, now) }

/-- `SecureStorage.getPKCEVerifier()`: returns and deletes the stored
verifier; `null` if absent, or if older than 10 minutes (also deleted). -/
def SecureStorage.getPKCEVerifier (now : Nat) (st : Store) : Option String × Store :=
  match st.pkceVerifier with
  | none => (none, st)
  | some (v, createdAt) =>
    if now - createdAt > 600000 then
      (none, { st with pkceVerifier := none })
    else
      (some v, { st with pkceVerifier := none })

/-- `SecureStorage.storeUserProfile(profile)`. -/
def SecureStorage.storeUserProfile (profile : UserProfile) (st : Store) : Store :=
  { st with userProfile := some profile }

/-- `SecureStorage.getUserProfile()`. -/
def SecureStorage.getUserProfile (st : Store) : Option UserProfile :=
  st.userProfile

/-- `SecureStorage.clearAllUserData()`: `clearTokens()` plus deleting
`user.profile`, `oauth.state` and `oauth.pkce.verifier`. -/
def SecureStorage.clearAllUserData (st : Store) : Store :=
  let st1 := SecureStorage.clearTokens st
  { st1 with userProfile := none, oauthState := none, pkceVerifier := none }

/-- The token-persisting call made by `AuthService` after a provider
response, identical at both call sites (the callback handler after the
code exchange, and `refreshAccessToken` after a refresh):
`storage.storeTokens(d.access_token, d.refresh_token, d.expires_in || 28800)`. -/
def AuthService.storeTokensFromResponse (now : Nat) (d : TokenResponse) (st : Store) : Store :=
  SecureStorage.storeTokens now d.access_token d.refresh_token (jsOr d.expires_in 28800) st

/-- `AuthService.refreshAccessToken()`: throws if no tokens or no refresh
token are stored; performs the refresh POST (outcome supplied); throws on
a network error or an `error` field in the response; otherwise stores the
new tokens and returns the new access token. -/
def AuthService.refreshAccessToken (now : Nat) (outcome : HttpOutcome) (st : Store) :
    Except String (String × Store) :=
  match SecureStorage.getTokens st with
  | none => .error "No refresh token available"
  | some tokens =>
    match tokens.refreshToken with
    | none => .error "No refresh token available"
    | some _ =>
      match outcome with
      | .networkError => .error "network error"
      | .response d =>
        match d.error with
        | some e => .error (d.error_description.getD e)
        | none =>
          let st1 := AuthService.storeTokensFromResponse now d st
          .ok (d.access_token, st1)

/-- `AuthService.getValidToken()`: the stored token if still valid;
otherwise, when expired, tries `refreshAccessToken` and catches any of
its errors into a `null` return; `null` in every remaining case. -/
def AuthService.getValidToken (now : Nat) (outcome : HttpOutcome) (st : Store) :
    Option String × Store :=
  match SecureStorage.getValidAccessToken now st with
  | some token => (some token, st)
  | none =>
    if SecureStorage.isTokenExpired now st then
      match AuthService.refreshAccessToken now outcome st with
      | .ok (tok, st1) => (some tok, st1)
      | .error _ => (none, st)
    else
      (none, st)

/-- `AuthService.isAuthenticated()`: `getValidToken() !== null`. -/
def AuthService.isAuthenticated (now : Nat) (outcome : HttpOutcome) (st : Store) : Bool :=
  (AuthService.getValidToken now outcome st).1.isSome

/-- `AuthService.logout()`: stops the callback server (out of storage
scope) and calls `storage.clearAllUserData()`. -/
def AuthService.logout (st : Store) : Store :=
  SecureStorage.clearAllUserData st

/-- `AuthService.getCurrentUser()`: `storage.getUserProfile()`. -/
def AuthService.getCurrentUser (st : Store) : Option UserProfile :=
  SecureStorage.getUserProfile st

/-- Runs a sequence of `verifyOAuthState` calls, each given as a pair
(call time, candidate state), threading the store; returns the list of
verdicts. -/
def runVerify (calls : List (Nat × String)) (st : Store) : List Bool :=
  match calls with
  | [] => []
  | (now, cand) :: rest =>
    let r := SecureStorage.verifyOAuthState now cand st
    r.1 :: runVerify rest r.2

/-- One character of the URL-safe base64 alphabet used by Node's
`Buffer.toString('base64url')`: `A-Z a-z 0-9 - _`. -/
def b64Char (n : Nat) : Char :=
  if n < 26 then Char.ofNat (65 + n)
  else if n < 52 then Char.ofNat (97 + (n - 26))
  else if n < 62 then Char.ofNat (48 + (n - 52))
  else if n = 62 then Char.ofNat 45
  else Char.ofNat 95

/-- Inverse of the base64url alphabet (arbitrary on non-alphabet input). -/
def b64Inv (c : Char) : Nat :=
  let n := c.toNat
  if 65 ≤ n && n ≤ 90 then n - 65
  else if 97 ≤ n && n ≤ 122 then 26 + (n - 97)
  else if 48 ≤ n && n ≤ 57 then 52 + (n - 48)
  else if n = 45 then 62
  else 63

/-- base64url encoding of a byte list (no padding), as produced by Node's
`Buffer.toString('base64url')`. -/
def base64urlEncode : List Nat → List Char
  | [] => []
  | [b1] => [b64Char (b1 / 4), b64Char (b1 % 4 * 16)]
  | [b1, b2] =>
    [b64Char (b1 / 4), b64Char (b1 % 4 * 16 + b2 / 16), b64Char (b2 % 16 * 4)]
  | b1 :: b2 :: b3 :: rest =>
    b64Char (b1 / 4) :: b64Char (b1 % 4 * 16 + b2 / 16) ::
    b64Char (b2 % 16 * 4 + b3 / 64) :: b64Char (b3 % 64) :: base64urlEncode rest

/-- base64url decoding (left inverse of `base64urlEncode` on byte lists). -/
def base64urlDecode : List Char → List Nat
  | [] => []
  | [c1, c2] => [b64Inv c1 * 4 + b64Inv c2 / 16]
  | [c1, c2, c3] =>
    [b64Inv c1 * 4 + b64Inv c2 / 16, b64Inv c2 % 16 * 16 + b64Inv c3 / 4]
  | c1 :: c2 :: c3 :: c4 :: rest =>
    (b64Inv c1 * 4 + b64Inv c2 / 16) :: (b64Inv c2 % 16 * 16 + b64Inv c3 / 4) ::
    (b64Inv c3 % 4 * 64 + b64Inv c4) :: base64urlDecode rest
  | [_] => []

/-- base64url encoding as a `String`. -/
def base64urlStr (bytes : List Nat) : String :=
  String.mk (base64urlEncode bytes)

/-- The bytes of an ASCII string (for the base64url alphabet the UTF-8
bytes are exactly the character codes), as fed to `hash.update(verifier)`. -/
def strBytes (s : String) : List Nat :=
  s.data.map (fun c => c.toNat)

/-- 32-bit modular addition. -/
def add32 (a b : Nat) : Nat := (a + b) % 4294967296

/-- 32-bit right rotation. -/
def rotr32 (n k : Nat) : Nat :=
  (k >>> n ||| k <<< (32 - n)) % 4294967296

/-- SHA-256 round constants (FIPS 180-4, in decimal). -/
def sha256K : List Nat :=
  [1116352408, 1899447441, 3049323471, 3921009573, 961987163,
   1508970993, 2453635748, 2870763221, 3624381080, 310598401,
   607225278, 1426881987, 1925078388, 2162078206, 2614888103,
   3248222580, 3835390401, 4022224774, 264347078, 604807628,
   770255983, 1249150122, 1555081692, 1996064986, 2554220882,
   2821834349, 2952996808, 3210313671, 3336571891, 3584528711,
   113926993, 338241895, 666307205, 773529912, 1294757372,
   1396182291, 1695183700, 1986661051, 2177026350, 2456956037,
   2730485921, 2820302411, 3259730800, 3345764771, 3516065817,
   3600352804, 4094571909, 275423344, 430227734, 506948616,
   659060556, 883997877, 958139571, 1322822218, 1537002063,
   1747873779, 1955562222, 2024104815, 2227730452, 2361852424,
   2428436474, 2756734187, 3204031479, 3329325298]

/-- SHA-256 initial hash value (FIPS 180-4, in decimal). -/
def sha256H0 : List Nat :=
  [1779033703, 3144134277, 1013904242, 2773480762,
   1359893119, 2600822924, 528734635, 1541459225]

/-- Big-endian byte serialisation of `v` into `n` bytes. -/
def toBytesBE (n v : Nat) : List Nat :=
  (List.range n).map (fun i => v >>> (8 * (n - 1 - i)) % 256)

/-- SHA-256 message padding: append `0x80`, zeros, and the 64-bit
big-endian bit length so the total length is a multiple of 64 bytes. -/
def sha256Pad (msg : List Nat) : List Nat :=
  let L := msg.length
  let zeros := (64 - (L + 9) % 64) % 64
  msg ++ [128] ++ List.replicate zeros 0 ++ toBytesBE 8 (L * 8)

/-- Splits a byte list into 64-byte blocks (the fuel argument, at least
the number of blocks, makes the recursion structural). -/
def chunks64Aux : Nat → List Nat → List (List Nat)
  | 0, _ => []
  | _, [] => []
  | fuel + 1, l => l.take 64 :: chunks64Aux fuel (l.drop 64)

/-- Splits a byte list into 64-byte blocks. -/
def chunks64 (l : List Nat) : List (List Nat) :=
  chunks64Aux l.length l

/-- The 16 initial 32-bit big-endian words of a 64-byte block. -/
def blockWords (block : List Nat) : List Nat :=
  (List.range 16).map (fun i =>
    block.getD (4 * i) 0 * 16777216 + block.getD (4 * i + 1) 0 * 65536 +
    block.getD (4 * i + 2) 0 * 256 + block.getD (4 * i + 3) 0)

/-- One extension step of the SHA-256 message schedule. -/
def scheduleStep (w : List Nat) : List Nat :=
  let n := w.length
  let wv := fun i => w.getD i 0
  let s0 := rotr32 7 (wv (n - 15)) ^^^ rotr32 18 (wv (n - 15)) ^^^ (wv (n - 15) >>> 3)
  let s1 := rotr32 17 (wv (n - 2)) ^^^ rotr32 19 (wv (n - 2)) ^^^ (wv (n - 2) >>> 10)
  w ++ [(wv (n - 16) + s0 + wv (n - 7) + s1) % 4294967296]

/-- The full 64-word SHA-256 message schedule of one block. -/
def sha256Schedule (block : List Nat) : List Nat :=
  (List.range 48).foldl (fun w _ => scheduleStep w) (blockWords block)

/-- One SHA-256 compression round. -/
def sha256Round (st : Nat × Nat × Nat × Nat × Nat × Nat × Nat × Nat)
    (kw : Nat × Nat) : Nat × Nat × Nat × Nat × Nat × Nat × Nat × Nat :=
  match st, kw with
  | (a, b, c, d, e, f, g, h), (k, w) =>
    let S1 := rotr32 6 e ^^^ rotr32 11 e ^^^ rotr32 25 e
    let ch := e &&& f ^^^ ((4294967295 - e) &&& g)
    let temp1 := (h + S1 + ch + k + w) % 4294967296
    let S0 := rotr32 2 a ^^^ rotr32 13 a ^^^ rotr32 22 a
    let maj := a &&& b ^^^ (a &&& c) ^^^ (b &&& c)
    let temp2 := (S0 + maj) % 4294967296
    (add32 temp1 temp2, a, b, c, add32 d temp1, e, f, g)

/-- SHA-256 compression of one 64-byte block into the running hash. -/
def sha256Compress (hs : List Nat) (block : List Nat) : List Nat :=
  let w := sha256Schedule block
  let hv := fun i => hs.getD i 0
  let init := (hv 0, hv 1, hv 2, hv 3, hv 4, hv 5, hv 6, hv 7)
  match (sha256K.zip w).foldl sha256Round init with
  | (a, b, c, d, e, f, g, h) =>
    [add32 (hv 0) a, add32 (hv 1) b, add32 (hv 2) c, add32 (hv 3) d,
     add32 (hv 4) e, add32 (hv 5) f, add32 (hv 6) g, add32 (hv 7) h]

/-- SHA-256 of a byte list, as a 32-byte list (the digest). -/
def sha256 (msg : List Nat) : List Nat :=
  let hs := (chunks64 (sha256Pad msg)).foldl sha256Compress sha256H0
  hs.foldr (fun w acc => toBytesBE 4 w ++ acc) []

/-- A PKCE verifier/challenge pair. -/
structure PKCEPair where
  verifier : String
  challenge : String
deriving DecidableEq

/-- `AuthService.generatePKCE()`:
`verifier = crypto.randomBytes(32).toString('base64url')` and
`challenge = createHash('sha256').update(verifier).digest('base64url')`.
The 32 bytes drawn from the secure random source are the explicit
`randomBytes` argument. -/
def AuthService.generatePKCE (randomBytes : List Nat) : PKCEPair :=
  let verifier := base64urlStr randomBytes
  let challenge := base64urlStr (sha256 (strBytes verifier))
  { verifier := verifier, challenge := challenge }

/-! ## Helper lemmas about `verifyOAuthState` -/

/-- With no stored state, verification fails and changes nothing. -/
theorem verifyOAuthState_of_none (now : Nat) (cand : String) (st : Store)
    (h : st.oauthState = none) :
    SecureStorage.verifyOAuthState now cand st = (false, st) := by
  simp [SecureStorage.verifyOAuthState, h]

/-- `verifyOAuthState` on a store holding a record, rewritten as an
`if` on the validity condition. -/
theorem verifyOAuthState_eq (now : Nat) (cand : String) (st : Store)
    (rec : OAuthStateRecord) (h : st.oauthState = some rec) :
    SecureStorage.verifyOAuthState now cand st =
      if rec.value = cand ∧ now - rec.createdAt < 600000 then
        (true, { st with oauthState := none })
      else (false, st) := by
  simp only [SecureStorage.verifyOAuthState, h]
  by_cases hc : rec.value = cand ∧ now - rec.createdAt < 600000
  · have hb : (rec.value == cand && decide (now - rec.createdAt < 600000)) = true := by
      simp [hc.1, hc.2]
    simp [hb, hc]
  · have hb : (rec.value == cand && decide (now - rec.createdAt < 600000)) = false := by
      rcases not_and_or.mp hc with h1 | h2
      · simp [h1]
      · simp [h2]
    simp [hb, hc]

/-- A failed verification leaves the store unchanged. -/
theorem verifyOAuthState_false_snd (now : Nat) (cand : String) (st : Store)
    (h : (SecureStorage.verifyOAuthState now cand st).1 = false) :
    (SecureStorage.verifyOAuthState now cand st).2 = st := by
  cases hs : st.oauthState with
  | none => rw [verifyOAuthState_of_none now cand st hs]
  | some rec =>
    rw [verifyOAuthState_eq now cand st rec hs] at h ⊢
    by_cases hc : rec.value = cand ∧ now - rec.createdAt < 600000
    · rw [if_pos hc] at h
      simp at h
    · rw [if_neg hc]

/-- A successful verification deletes the stored state. -/
theorem verifyOAuthState_true_snd (now : Nat) (cand : String) (st : Store)
    (h : (SecureStorage.verifyOAuthState now cand st).1 = true) :
    (SecureStorage.verifyOAuthState now cand st).2.oauthState = none := by
  cases hs : st.oauthState with
  | none => rw [verifyOAuthState_of_none now cand st hs] at h; simp at h
  | some rec =>
    rw [verifyOAuthState_eq now cand st rec hs] at h ⊢
    by_cases hc : rec.value = cand ∧ now - rec.createdAt < 600000
    · rw [if_pos hc]
    · rw [if_neg hc] at h
      simp at h

/-- Characterisation of the verdict of `verifyOAuthState`. -/
theorem verifyOAuthState_fst_iff (now : Nat) (cand : String) (st : Store) :
    (SecureStorage.verifyOAuthState now cand st).1 = true ↔
      ∃ rec, st.oauthState = some rec ∧ rec.value = cand ∧
        now - rec.createdAt < 600000 := by
  cases hs : st.oauthState with
  | none =>
    rw [verifyOAuthState_of_none now cand st hs]
    simp
  | some rec =>
    rw [verifyOAuthState_eq now cand st rec hs]
    by_cases hc : rec.value = cand ∧ now - rec.createdAt < 600000
    · rw [if_pos hc]
      constructor
      · intro _
        exact ⟨rec, rfl, hc.1, hc.2⟩
      · intro _
        rfl
    · rw [if_neg hc]
      constructor
      · intro h
        simp at h
      · rintro ⟨rec2, hrec, hval, hfresh⟩
        cases Option.some.inj hrec
        exact absurd ⟨hval, hfresh⟩ hc

/-! ## C1 -/

/-- Counterexample to C1: with state `"s1"` stored at time 0, a
verification attempt at time 1000 with the non-matching candidate
`"wrong"` returns false and does NOT delete the stored record — refuting
the clause "regardless of whether the candidate matches, the stored
PendingFlow state record is deleted by the call". -/
theorem verifyOAuthState_mismatch_keeps_record_cex :
    (SecureStorage.verifyOAuthState 1000 "wrong"
        ⟨none, some ⟨"s1", 0⟩, none, none⟩).1 = false ∧
    (SecureStorage.verifyOAuthState 1000 "wrong"
        ⟨none, some ⟨"s1", 0⟩, none, none⟩).2.oauthState = some ⟨"s1", 0⟩ := by
  decide

/-- C1 (amended): `verifyOAuthState(candidateState)` returns true only if
a record exists, its stored state equals the candidate and it is less
than 10 minutes old; the stored record is deleted exactly when the
verification succeeds, and a failed verification leaves the whole store
unchanged. -/
theorem verifyOAuthState_consume_spec (now : Nat) (cand : String) (st : Store) :
    ((SecureStorage.verifyOAuthState now cand st).1 = true ↔
      ∃ rec, st.oauthState = some rec ∧ rec.value = cand ∧
        now - rec.createdAt < 600000) ∧
    ((SecureStorage.verifyOAuthState now cand st).1 = true →
      (SecureStorage.verifyOAuthState now cand st).2.oauthState = none) ∧
    ((SecureStorage.verifyOAuthState now cand st).1 = false →
      (SecureStorage.verifyOAuthState now cand st).2 = st) :=
  ⟨verifyOAuthState_fst_iff now cand st,
   verifyOAuthState_true_snd now cand st,
   verifyOAuthState_false_snd now cand st⟩

/-- Witness for C1's amended theorem at a concrete input: a matching,
fresh verification succeeds and deletes the record. -/
theorem verifyOAuthState_consume_spec_witness :
    (SecureStorage.verifyOAuthState 5 "s1"
        ⟨none, some ⟨"s1", 0⟩, none, none⟩).1 = true ∧
    (SecureStorage.verifyOAuthState 5 "s1"
        ⟨none, some ⟨"s1", 0⟩, none, none⟩).2.oauthState = none :=
  ⟨by decide,
   (verifyOAuthState_consume_spec 5 "s1" ⟨none, some ⟨"s1", 0⟩, none, none⟩).2.1
     (by decide)⟩

/-! ## C10 -/

/-- C10: a failed verification (wrong candidate, or stored record already
expired) returns false and leaves the store unchanged, so a subsequent
call with the actually-issued state value within 10 minutes of storage
still succeeds. -/
theorem verifyOAuthState_failed_attempt_preserves (now1 now2 : Nat)
    (cand : String) (st : Store) (rec : OAuthStateRecord)
    (h : st.oauthState = some rec)
    (hfail : cand ≠ rec.value ∨ 600000 ≤ now1 - rec.createdAt)
    (hfresh : now2 - rec.createdAt < 600000) :
    SecureStorage.verifyOAuthState now1 cand st = (false, st) ∧
    (SecureStorage.verifyOAuthState now2 rec.value
        (SecureStorage.verifyOAuthState now1 cand st).2).1 = true := by
  have hfalse : (SecureStorage.verifyOAuthState now1 cand st).1 = false := by
    rw [← Bool.not_eq_true, verifyOAuthState_fst_iff]
    rintro ⟨rec2, hrec2, hval, hage⟩
    rw [h] at hrec2
    cases hrec2
    rcases hfail with hne | hold
    · exact hne hval.symm
    · omega
  have heq : SecureStorage.verifyOAuthState now1 cand st = (false, st) := by
    have h2 := verifyOAuthState_false_snd now1 cand st hfalse
    exact Prod.ext hfalse h2
  refine ⟨heq, ?_⟩
  rw [heq]
  rw [verifyOAuthState_fst_iff]
  exact ⟨rec, h, rfl, hfresh⟩

/-- Witness for C10 at a concrete input. -/
theorem verifyOAuthState_failed_attempt_preserves_witness :
    ((("bad" : String) ≠ "s1" ∨ 600000 ≤ 1 - 0) ∧ 2 - 0 < 600000) ∧
    (SecureStorage.verifyOAuthState 1 "bad"
        ⟨none, some ⟨"s1", 0⟩, none, none⟩ = (false, ⟨none, some ⟨"s1", 0⟩, none, none⟩) ∧
      (SecureStorage.verifyOAuthState 2 "s1"
          (SecureStorage.verifyOAuthState 1 "bad"
            ⟨none, some ⟨"s1", 0⟩, none, none⟩).2).1 = true) :=
  ⟨⟨Or.inl (by decide), by decide⟩,
   verifyOAuthState_failed_attempt_preserves 1 2 "bad"
     ⟨none, some ⟨"s1", 0⟩, none, none⟩ ⟨"s1", 0⟩ rfl
     (Or.inl (by decide)) (by decide)⟩

/-! ## C4 -/

/-- C4: `storeTokens(a, r, 3600)` at time `T` stores
`expiresAt = T + 3600s`, and `isTokenExpired` is false at `T+3599s` and
true at `T+3601s` (times in milliseconds). -/
theorem storeTokens_expiry_correct (T : Nat) (a : String) (r : Option String)
    (st : Store) :
    (∃ t, SecureStorage.getTokens (SecureStorage.storeTokens T a r 3600 st) = some t ∧
      t.expiresAt = T + 3600 * 1000) ∧
    SecureStorage.isTokenExpired (T + 3599 * 1000)
      (SecureStorage.storeTokens T a r 3600 st) = false ∧
    SecureStorage.isTokenExpired (T + 3601 * 1000)
      (SecureStorage.storeTokens T a r 3600 st) = true := by
  refine ⟨⟨_, rfl, rfl⟩, ?_, ?_⟩ <;>
    simp [SecureStorage.isTokenExpired, SecureStorage.getTokens,
      SecureStorage.storeTokens]

/-! ## C7 -/

/-- C7: a stored blob on which decryption/parsing fails is read back as
"no tokens" (`getTokens()` returns null instead of throwing). -/
theorem getTokens_corrupted_is_none (st : Store)
    (h : st.tokens = some .corrupted) :
    SecureStorage.getTokens st = none := by
  simp [SecureStorage.getTokens, h]

/-- Witness for C7 at a concrete store holding a corrupted blob. -/
theorem getTokens_corrupted_is_none_witness :
    SecureStorage.getTokens ⟨some .corrupted, none, none, none⟩ = none :=
  getTokens_corrupted_is_none ⟨some .corrupted, none, none, none⟩ rfl

/-! ## C8 -/

/-- C8: after `logout()`, `isAuthenticated()` is false (for any refresh
outcome and any clock), `getCurrentUser()` is null, and no PendingFlow
artifact (stored state or PKCE verifier) remains. -/
theorem logout_clears_everything (now : Nat) (outcome : HttpOutcome) (st : Store) :
    AuthService.isAuthenticated now outcome (AuthService.logout st) = false ∧
    AuthService.getCurrentUser (AuthService.logout st) = none ∧
    (AuthService.logout st).oauthState = none ∧
    (AuthService.logout st).pkceVerifier = none := by
  refine ⟨?_, rfl, rfl, rfl⟩
  simp [AuthService.isAuthenticated, AuthService.getValidToken, AuthService.logout,
    SecureStorage.clearAllUserData, SecureStorage.clearTokens,
    SecureStorage.getValidAccessToken, SecureStorage.isTokenExpired,
    SecureStorage.getTokens, AuthService.refreshAccessToken]

/-! ## C3 -/

/-- Counterexample to C3: with an expired record holding refresh token
`"R1"` (expiresAt 1000, queried at 2000) and a refresh response
`{access_token:"A2", expires_in:3600}` with no `refresh_token` field,
`getValidToken()` does return `"A2"`, but the record afterwards holds
`refreshToken = none` — the old `"R1"` is NOT preserved (the JS default
parameter turns the absent field into `null`). -/
theorem refresh_drops_refresh_token_cex :
    (AuthService.getValidToken 2000
        (.response ⟨"A2", none, some 3600, none, none⟩)
        ⟨some (.good ⟨"A0", some "R1", 1000, 0⟩), none, none, none⟩).1 = some "A2" ∧
    SecureStorage.getTokens (AuthService.getValidToken 2000
        (.response ⟨"A2", none, some 3600, none, none⟩)
        ⟨some (.good ⟨"A0", some "R1", 1000, 0⟩), none, none, none⟩).2 =
      some ⟨"A2", none, 3602000, 2000⟩ := by
  decide

/-- `refreshAccessToken` succeeds exactly on a stored refresh token and a
clean response, storing the response's tokens. -/
theorem refreshAccessToken_eq_ok (now : Nat) (d : TokenResponse) (st : Store)
    (t : TokenData) (r : String)
    (hg : SecureStorage.getTokens st = some t)
    (hr : t.refreshToken = some r)
    (he : d.error = none) :
    AuthService.refreshAccessToken now (.response d) st =
      .ok (d.access_token, AuthService.storeTokensFromResponse now d st) := by
  simp [AuthService.refreshAccessToken, hg, hr, he]

/-- `refreshAccessToken` throws when no token record is stored. -/
theorem refreshAccessToken_error_of_no_tokens (now : Nat) (outcome : HttpOutcome)
    (st : Store) (hg : SecureStorage.getTokens st = none) :
    AuthService.refreshAccessToken now outcome st =
      .error "No refresh token available" := by
  simp [AuthService.refreshAccessToken, hg]

/-- `refreshAccessToken` throws when the record has no refresh token. -/
theorem refreshAccessToken_error_of_no_refresh_token (now : Nat)
    (outcome : HttpOutcome) (st : Store) (t : TokenData)
    (hg : SecureStorage.getTokens st = some t)
    (hr : t.refreshToken = none) :
    AuthService.refreshAccessToken now outcome st =
      .error "No refresh token available" := by
  simp [AuthService.refreshAccessToken, hg, hr]

/-- `refreshAccessToken` throws on a network failure. -/
theorem refreshAccessToken_error_of_network (now : Nat) (st : Store)
    (t : TokenData) (r : String)
    (hg : SecureStorage.getTokens st = some t)
    (hr : t.refreshToken = some r) :
    AuthService.refreshAccessToken now .networkError st =
      .error "network error" := by
  simp [AuthService.refreshAccessToken, hg, hr]

/-- `refreshAccessToken` throws on a provider error response. -/
theorem refreshAccessToken_error_of_provider (now : Nat) (st : Store)
    (t : TokenData) (r : String) (d : TokenResponse) (e : String)
    (hg : SecureStorage.getTokens st = some t)
    (hr : t.refreshToken = some r)
    (he : d.error = some e) :
    AuthService.refreshAccessToken now (.response d) st =
      .error (d.error_description.getD e) := by
  simp [AuthService.refreshAccessToken, hg, hr, he]

/-- C3 (amended): in the scenario of the claim, `getValidToken()` returns
the new access token, but the stored record's refresh token is
overwritten with `null`: the old refresh token is lost, not preserved. -/
theorem refresh_overwrites_refresh_token (now : Nat) (st : Store)
    (t : TokenData) (r : String) (d : TokenResponse)
    (h1 : SecureStorage.getTokens st = some t)
    (h2 : t.refreshToken = some r)
    (h3 : t.expiresAt ≤ now)
    (h4 : d.error = none)
    (h5 : d.refresh_token = none) :
    (AuthService.getValidToken now (.response d) st).1 = some d.access_token ∧
    ∃ t1, SecureStorage.getTokens
        (AuthService.getValidToken now (.response d) st).2 = some t1 ∧
      t1.refreshToken = none := by
  have hrefresh := refreshAccessToken_eq_ok now d st t r h1 h2 h4
  have hvalid : SecureStorage.getValidAccessToken now st = none := by
    simp [SecureStorage.getValidAccessToken, h1, h3]
  have hexp : SecureStorage.isTokenExpired now st = true := by
    simp [SecureStorage.isTokenExpired, h1, h3]
  have hgv : AuthService.getValidToken now (.response d) st =
      (some d.access_token, AuthService.storeTokensFromResponse now d st) := by
    simp [AuthService.getValidToken, hvalid, hexp, hrefresh]
  rw [hgv]
  exact ⟨rfl, ⟨_, rfl, h5⟩⟩

/-- Witness for C3's amended theorem at the concrete inputs of the
claim's scenario. -/
theorem refresh_overwrites_refresh_token_witness :
    (SecureStorage.getTokens
        ⟨some (.good ⟨"A0", some "R1", 1000, 0⟩), none, none, none⟩ =
      some ⟨"A0", some "R1", 1000, 0⟩) ∧
    ((AuthService.getValidToken 2000
        (.response ⟨"A2", none, some 3600, none, none⟩)
        ⟨some (.good ⟨"A0", some "R1", 1000, 0⟩), none, none, none⟩).1 = some "A2" ∧
    ∃ t1, SecureStorage.getTokens
        (AuthService.getValidToken 2000
          (.response ⟨"A2", none, some 3600, none, none⟩)
          ⟨some (.good ⟨"A0", some "R1", 1000, 0⟩), none, none, none⟩).2 = some t1 ∧
      t1.refreshToken = none) :=
  ⟨by decide,
   refresh_overwrites_refresh_token 2000
     ⟨some (.good ⟨"A0", some "R1", 1000, 0⟩), none, none, none⟩
     ⟨"A0", some "R1", 1000, 0⟩ "R1" ⟨"A2", none, some 3600, none, none⟩
     (by decide) (by decide) (by decide) (by decide) (by decide)⟩

/-! ## C5 -/

/-- C5: when the provider response omits `expires_in`, the persisted
record gets `expiresAt = now + 28800s` (8 hours), both on the
code-exchange store path and on a successful refresh. -/
theorem default_expiry_when_absent (now : Nat) (d : TokenResponse) (st : Store)
    (h : d.expires_in = none) :
    (∃ t, SecureStorage.getTokens
        (AuthService.storeTokensFromResponse now d st) = some t ∧
      t.expiresAt = now + 28800 * 1000) ∧
    (∀ tok st1, AuthService.refreshAccessToken now (.response d) st = .ok (tok, st1) →
      ∃ t, SecureStorage.getTokens st1 = some t ∧
        t.expiresAt = now + 28800 * 1000) := by
  have hstore : ∃ t, SecureStorage.getTokens
      (AuthService.storeTokensFromResponse now d st) = some t ∧
      t.expiresAt = now + 28800 * 1000 := by
    refine ⟨_, rfl, ?_⟩
    simp [AuthService.storeTokensFromResponse, SecureStorage.storeTokens, jsOr, h]
  refine ⟨hstore, ?_⟩
  intro tok st1 hok
  cases hg : SecureStorage.getTokens st with
  | none =>
    rw [refreshAccessToken_error_of_no_tokens now _ st hg] at hok
    cases hok
  | some t0 =>
    cases hr : t0.refreshToken with
    | none =>
      rw [refreshAccessToken_error_of_no_refresh_token now _ st t0 hg hr] at hok
      cases hok
    | some r0 =>
      cases he : d.error with
      | some e =>
        rw [refreshAccessToken_error_of_provider now st t0 r0 d e hg hr he] at hok
        cases hok
      | none =>
        rw [refreshAccessToken_eq_ok now d st t0 r0 hg hr he] at hok
        cases hok
        exact hstore

/-- Witness for C5 at a concrete input (expired record with a refresh
token, response without `expires_in`). -/
theorem default_expiry_when_absent_witness :
    ((⟨"A2", none, none, none, none⟩ : TokenResponse).expires_in = none) ∧
    ((∃ t, SecureStorage.getTokens
        (AuthService.storeTokensFromResponse 7 ⟨"A2", none, none, none, none⟩
          ⟨some (.good ⟨"A0", some "R1", 5, 0⟩), none, none, none⟩) = some t ∧
      t.expiresAt = 7 + 28800 * 1000) ∧
    (∀ tok st1, AuthService.refreshAccessToken 7
        (.response ⟨"A2", none, none, none, none⟩)
        ⟨some (.good ⟨"A0", some "R1", 5, 0⟩), none, none, none⟩ = .ok (tok, st1) →
      ∃ t, SecureStorage.getTokens st1 = some t ∧
        t.expiresAt = 7 + 28800 * 1000)) :=
  ⟨rfl,
   default_expiry_when_absent 7 ⟨"A2", none, none, none, none⟩
     ⟨some (.good ⟨"A0", some "R1", 5, 0⟩), none, none, none⟩ rfl⟩

/-! ## C6 -/

/-- C6: `getValidToken()` is a total function of the storage state and
the refresh outcome (the embedding absorbs every `refreshAccessToken`
error into a `none` return, mirroring the `try/catch`): it returns the
stored access token while the record is unexpired; and when the record is
absent or expired, every refresh failure — no stored tokens, no refresh
token, a network error, or a provider error response — yields `none` with
the store unchanged, never a propagated exception. -/
theorem getValidToken_never_throws (now : Nat) (outcome : HttpOutcome) (st : Store) :
    (∀ t, SecureStorage.getTokens st = some t → now < t.expiresAt →
      AuthService.getValidToken now outcome st = (some t.accessToken, st)) ∧
    (SecureStorage.isTokenExpired now st = true →
      ∀ e, AuthService.refreshAccessToken now outcome st = .error e →
      AuthService.getValidToken now outcome st = (none, st)) ∧
    ((SecureStorage.getTokens st = none ∨
      (∃ t, SecureStorage.getTokens st = some t ∧ t.refreshToken = none) ∨
      outcome = .networkError ∨
      (∃ d e, outcome = .response d ∧ d.error = some e)) →
      SecureStorage.isTokenExpired now st = true →
      (AuthService.getValidToken now outcome st).1 = none) := by
  refine ⟨?_, ?_, ?_⟩
  · intro t ht hlt
    have hvalid : SecureStorage.getValidAccessToken now st = some t.accessToken := by
      simp [SecureStorage.getValidAccessToken, ht]
      omega
    simp [AuthService.getValidToken, hvalid]
  · intro hexp e herr
    have hvalid : SecureStorage.getValidAccessToken now st = none := by
      unfold SecureStorage.isTokenExpired at hexp
      unfold SecureStorage.getValidAccessToken
      cases hg : SecureStorage.getTokens st with
      | none => rfl
      | some t =>
        rw [hg] at hexp
        simp at hexp
        simp [hexp]
    simp [AuthService.getValidToken, hvalid, hexp, herr]
  · intro hfail hexp
    have herr : ∃ e, AuthService.refreshAccessToken now outcome st = .error e := by
      rcases hfail with hg | ⟨t, ht, hr⟩ | hnet | ⟨d, e, hresp, herrd⟩
      · exact ⟨_, refreshAccessToken_error_of_no_tokens now outcome st hg⟩
      · exact ⟨_, refreshAccessToken_error_of_no_refresh_token now outcome st t ht hr⟩
      · cases hg : SecureStorage.getTokens st with
        | none => exact ⟨_, refreshAccessToken_error_of_no_tokens now outcome st hg⟩
        | some t =>
          cases hr : t.refreshToken with
          | none =>
            exact ⟨_, refreshAccessToken_error_of_no_refresh_token now outcome st t hg hr⟩
          | some r =>
            rw [hnet]
            exact ⟨_, refreshAccessToken_error_of_network now st t r hg hr⟩
      · cases hg : SecureStorage.getTokens st with
        | none => exact ⟨_, refreshAccessToken_error_of_no_tokens now outcome st hg⟩
        | some t =>
          cases hr : t.refreshToken with
          | none =>
            exact ⟨_, refreshAccessToken_error_of_no_refresh_token now outcome st t hg hr⟩
          | some r =>
            rw [hresp]
            exact ⟨_, refreshAccessToken_error_of_provider now st t r d e hg hr herrd⟩
    rcases herr with ⟨e, herr⟩
    have hvalid : SecureStorage.getValidAccessToken now st = none := by
      unfold SecureStorage.isTokenExpired at hexp
      unfold SecureStorage.getValidAccessToken
      cases hg : SecureStorage.getTokens st with
      | none => rfl
      | some t =>
        rw [hg] at hexp
        simp at hexp
        simp [hexp]
    simp [AuthService.getValidToken, hvalid, hexp, herr]

/-- Witness for C6 at a concrete input: expired record with a refresh
token and a network error during refresh give `none`. -/
theorem getValidToken_never_throws_witness :
    (SecureStorage.isTokenExpired 2000
        ⟨some (.good ⟨"A0", some "R1", 1000, 0⟩), none, none, none⟩ = true) ∧
    ((AuthService.getValidToken 2000 .networkError
        ⟨some (.good ⟨"A0", some "R1", 1000, 0⟩), none, none, none⟩).1 = none) :=
  ⟨by decide,
   (getValidToken_never_throws 2000 .networkError
       ⟨some (.good ⟨"A0", some "R1", 1000, 0⟩), none, none, none⟩).2.2
     (Or.inr (Or.inr (Or.inl rfl))) (by decide)⟩

/-! ## C2 -/

/-- Once no state is stored, every further verification returns false. -/
theorem runVerify_all_false (calls : List (Nat × String)) (st : Store)
    (h : st.oauthState = none) : ∀ b ∈ runVerify calls st, b = false := by
  induction calls generalizing st with
  | nil => simp [runVerify]
  | cons c rest ih =>
    obtain ⟨now, cand⟩ := c
    simp only [runVerify]
    rw [verifyOAuthState_of_none now cand st h]
    intro b hb
    rcases List.mem_cons.mp hb with hb | hb
    · exact hb
    · exact ih st h b hb

/-- Over any sequence of verification calls, at most one returns true. -/
theorem runVerify_count_true_le_one (calls : List (Nat × String)) (st : Store) :
    (runVerify calls st).count true ≤ 1 := by
  induction calls generalizing st with
  | nil => simp [runVerify]
  | cons c rest ih =>
    obtain ⟨now, cand⟩ := c
    simp only [runVerify]
    cases hr : (SecureStorage.verifyOAuthState now cand st).1 with
    | false =>
      rw [verifyOAuthState_false_snd now cand st hr]
      have := ih st
      simp only [List.count_cons]
      simp
      omega
    | true =>
      have hnone := verifyOAuthState_true_snd now cand st hr
      have hall := runVerify_all_false rest _ hnone
      have hzero : (runVerify rest (SecureStorage.verifyOAuthState now cand st).2).count true = 0 := by
        rw [List.count_eq_zero]
        intro hmem
        exact absurd (hall true hmem) (by simp)
      simp only [List.count_cons, hzero]
      simp

/-- The per-candidate count over the zipped calls/results is bounded by
the number of true results. -/
theorem countP_zip_le_count_true (l : List (Nat × String)) (res : List Bool)
    (q : Nat × String → Bool) :
    ((l.zip res).countP (fun p => q p.1 && p.2)) ≤ res.count true := by
  induction l generalizing res with
  | nil => simp
  | cons a l2 ih =>
    cases res with
    | nil => simp
    | cons b res2 =>
      simp only [List.zip_cons_cons, List.countP_cons, List.count_cons]
      have := ih res2
      cases b <;> cases hq : q a <;> simp <;> omega

/-- C2: over any sequence of `verifyOAuthState` calls (no intervening
store), at most one call with argument `s` returns true, and every call
after a call that returned true returns false. -/
theorem state_single_use (calls : List (Nat × String)) (st : Store) (s : String) :
    ((calls.zip (runVerify calls st)).countP (fun p => p.1.2 == s && p.2)) ≤ 1 ∧
    ∀ i j, (hij : i < j) → (hj : j < (runVerify calls st).length) →
      (runVerify calls st)[i] = true → (runVerify calls st)[j] = false := by
  constructor
  · exact Nat.le_trans
      (countP_zip_le_count_true calls (runVerify calls st) (fun p => p.2 == s))
      (runVerify_count_true_le_one calls st)
  · induction calls generalizing st with
    | nil =>
      intro i j hij hj
      simp [runVerify] at hj
    | cons c rest ih =>
      obtain ⟨now, cand⟩ := c
      intro i j hij hj hi
      simp only [runVerify] at hi hj ⊢
      cases i with
      | zero =>
        rw [List.getElem_cons_zero] at hi
        have hnone := verifyOAuthState_true_snd now cand st hi
        have hall := runVerify_all_false rest _ hnone
        cases j with
        | zero => omega
        | succ j2 =>
          rw [List.getElem_cons_succ]
          exact hall _ (List.getElem_mem _)
      | succ i2 =>
        cases j with
        | zero => omega
        | succ j2 =>
          rw [List.getElem_cons_succ] at hi ⊢
          have hj2 : j2 < (runVerify rest (SecureStorage.verifyOAuthState now cand st).2).length := by
            simp only [List.length_cons] at hj
            omega
          exact ih _ i2 j2 (by omega) hj2 hi

/-- Witness for C2 at a concrete input: state `"s1"` stored at time 0,
verified twice with the right value; the first call succeeds, the second
fails. -/
theorem state_single_use_witness :
    (0 < 1 ∧ 1 < (runVerify [(1, "s1"), (2, "s1")]
        ⟨none, some ⟨"s1", 0⟩, none, none⟩).length ∧
      (runVerify [(1, "s1"), (2, "s1")]
        ⟨none, some ⟨"s1", 0⟩, none, none⟩).get ⟨0, by decide⟩ = true) ∧
    ((([(1, "s1"), (2, "s1")].zip (runVerify [(1, "s1"), (2, "s1")]
        ⟨none, some ⟨"s1", 0⟩, none, none⟩)).countP
          (fun p => p.1.2 == "s1" && p.2)) ≤ 1 ∧
      (runVerify [(1, "s1"), (2, "s1")]
        ⟨none, some ⟨"s1", 0⟩, none, none⟩).get ⟨1, by decide⟩ = false) :=
  ⟨⟨by decide, by decide, by decide⟩,
   (state_single_use [(1, "s1"), (2, "s1")]
      ⟨none, some ⟨"s1", 0⟩, none, none⟩ "s1").1,
   (state_single_use [(1, "s1"), (2, "s1")]
      ⟨none, some ⟨"s1", 0⟩, none, none⟩ "s1").2 0 1 (by decide) (by decide)
     (by decide)⟩

/-! ## C9 -/

/-- The base64url alphabet map is inverted by `b64Inv` on `0..63`. -/
theorem b64Inv_b64Char : ∀ n : Fin 64, b64Inv (b64Char n.val) = n.val := by
  decide

/-- `b64Inv` inverts `b64Char` below 64 (Nat form). -/
theorem b64Inv_b64Char_eq (n : Nat) (h : n < 64) : b64Inv (b64Char n) = n :=
  b64Inv_b64Char ⟨n, h⟩

/-- Decoding inverts encoding on byte lists, hence the encoding loses no
entropy. -/
theorem b64_roundtrip : ∀ (l : List Nat), (∀ b ∈ l, b < 256) →
    base64urlDecode (base64urlEncode l) = l
  | [], _ => rfl
  | [b1], h => by
    have hb1 : b1 < 256 := h b1 (by simp)
    simp only [base64urlEncode, base64urlDecode]
    rw [b64Inv_b64Char_eq (b1 / 4) (by omega),
      b64Inv_b64Char_eq (b1 % 4 * 16) (by omega)]
    simp only [List.cons.injEq, and_true]
    omega
  | [b1, b2], h => by
    have hb1 : b1 < 256 := h b1 (by simp)
    have hb2 : b2 < 256 := h b2 (by simp)
    simp only [base64urlEncode, base64urlDecode]
    rw [b64Inv_b64Char_eq (b1 / 4) (by omega),
      b64Inv_b64Char_eq (b1 % 4 * 16 + b2 / 16) (by omega),
      b64Inv_b64Char_eq (b2 % 16 * 4) (by omega)]
    simp only [List.cons.injEq, and_true]
    constructor <;> omega
  | b1 :: b2 :: b3 :: rest, h => by
    have hb1 : b1 < 256 := h b1 (by simp)
    have hb2 : b2 < 256 := h b2 (by simp)
    have hb3 : b3 < 256 := h b3 (by simp)
    have ih := b64_roundtrip rest (fun b hb => h b (by simp [hb]))
    simp only [base64urlEncode, base64urlDecode]
    rw [b64Inv_b64Char_eq (b1 / 4) (by omega),
      b64Inv_b64Char_eq (b1 % 4 * 16 + b2 / 16) (by omega),
      b64Inv_b64Char_eq (b2 % 16 * 4 + b3 / 64) (by omega),
      b64Inv_b64Char_eq (b3 % 64) (by omega)]
    simp only [List.cons.injEq]
    exact ⟨by omega, by omega, by omega, ih⟩

/-- `base64urlEncode` is injective on byte lists. -/
theorem base64urlEncode_inj (l1 l2 : List Nat)
    (h1 : ∀ b ∈ l1, b < 256) (h2 : ∀ b ∈ l2, b < 256)
    (he : base64urlEncode l1 = base64urlEncode l2) : l1 = l2 := by
  rw [← b64_roundtrip l1 h1, ← b64_roundtrip l2 h2, he]

/-- `base64urlStr` is injective on byte lists. -/
theorem base64urlStr_inj (l1 l2 : List Nat)
    (h1 : ∀ b ∈ l1, b < 256) (h2 : ∀ b ∈ l2, b < 256)
    (he : base64urlStr l1 = base64urlStr l2) : l1 = l2 :=
  base64urlEncode_inj l1 l2 h1 h2 (congrArg String.data he)

/-- C9: for every 32-byte draw from the secure random source, the
verifier produced by `generatePKCE` is exactly its base64url encoding —
an encoding that is injective on 32-byte inputs, so the verifier carries
all 32 bytes (256 bits) of entropy — and the challenge is the base64url
encoding of the SHA-256 digest of the encoded verifier string itself. -/
theorem generatePKCE_contract (bytes : List Nat)
    (hlen : bytes.length = 32) (hb : ∀ b ∈ bytes, b < 256) :
    (AuthService.generatePKCE bytes).verifier = base64urlStr bytes ∧
    (∀ bytes2, bytes2.length = 32 → (∀ b ∈ bytes2, b < 256) →
      base64urlStr bytes2 = base64urlStr bytes → bytes2 = bytes) ∧
    (AuthService.generatePKCE bytes).challenge =
      base64urlStr (sha256 (strBytes (AuthService.generatePKCE bytes).verifier)) :=
  ⟨rfl,
   fun bytes2 _ hb2 he => base64urlStr_inj bytes2 bytes hb2 hb he,
   rfl⟩

/-- Witness for C9 at a concrete 32-byte input. -/
theorem generatePKCE_contract_witness :
    ((List.replicate 32 0).length = 32 ∧ ∀ b ∈ List.replicate 32 0, b < 256) ∧
    ((AuthService.generatePKCE (List.replicate 32 0)).verifier =
        base64urlStr (List.replicate 32 0) ∧
      (∀ bytes2, bytes2.length = 32 → (∀ b ∈ bytes2, b < 256) →
        base64urlStr bytes2 = base64urlStr (List.replicate 32 0) →
        bytes2 = List.replicate 32 0) ∧
      (AuthService.generatePKCE (List.replicate 32 0)).challenge =
        base64urlStr (sha256 (strBytes
          (AuthService.generatePKCE (List.replicate 32 0)).verifier))) :=
  ⟨⟨by decide, by decide⟩,
   generatePKCE_contract (List.replicate 32 0) (by decide) (by decide)⟩

/-- FIPS 180-4 test vector: the embedded `sha256` hashes `"abc"` to the
standard digest, grounding the challenge computation in real SHA-256. -/
theorem sha256_abc_vector :
    sha256 (strBytes "abc") =
      [0xba, 0x78, 0x16, 0xbf, 0x8f, 0x01, 0xcf, 0xea, 0x41, 0x41, 0x40, 0xde,
       0x5d, 0xae, 0x22, 0x23, 0xb0, 0x03, 0x61, 0xa3, 0x96, 0x17, 0x7a, 0x9c,
       0xb4, 0x10, 0xff, 0x61, 0xf2, 0x00, 0x15, 0xad] := by
  decide
